import Mathlib

/-!
Verification development for the `model_data_loader` repository
(`src/model_datasets/{output,forcing,datasets,gamut}.py`).

The Python code is shallowly embedded: pandas timestamps become a day
number (days since the Unix epoch) together with a minute-of-day field,
pandas `date_range(freq='D')` becomes an explicit list of evenly spaced
timestamps, xarray catalogs become association lists from variable name
to dimension signature, and every `raise` becomes an `Except.error`.
-/

/-- Error taxonomy of the embedded code.  The Python sources raise
`ValueError` / `FileNotFoundError` with distinguishing messages; each
distinct raising site is mapped to one constructor. -/
inductive DataError where
  /-- `FileNotFoundError` (missing diagnostic or forcing file). -/
  | notFound
  /-- `ValueError` in `get_gregorian_index` for a diagnostic other than
  `land_daily` / `land_month`. -/
  | unsupportedDiagnostic
  /-- `ValueError("No valid variables were provided ...")` at the end of
  `LM4ModelOutput.get_data`. -/
  | noData
  /-- `ValueError("Spinup years must be a multiple of 10.")`. -/
  | invalidArgument
  /-- any other `ValueError` (e.g. the one pandas raises from
  `pd.concat([])` or from `Timestamp.replace` on a non-constructible
  date, or the constructed-but-unraised one in `datasets.py`). -/
  | valueError
  /-- pandas `OutOfBoundsDatetime` (a timestamp outside the
  representable range). -/
  | outOfBounds
  /-- `IndexError` (e.g. `index[0]` / `index[-1]` on an empty series). -/
  | indexError
deriving DecidableEq, Repr

deriving instance DecidableEq for Except

/-- Day number of the Gregorian date `y-m-d`, counted from the Unix epoch
1970-01-01 (day 0).  Standard civil-from-date conversion; embeds what
`pandas.Timestamp('YYYY-MM-DD')` denotes. -/
def daysFromCivil (y m d : Int) : Int :=
  let y2 : Int := if m ≤ 2 then y - 1 else y
  let era : Int := (if 0 ≤ y2 then y2 else y2 - 399) / 400
  let yoe : Int := y2 - era * 400
  let doy : Int := (153 * (m + (if 2 < m then -3 else 9)) + 2) / 5 + d - 1
  let doe : Int := yoe * 365 + yoe / 4 - yoe / 100 + doy
  era * 146097 + doe - 719468

/-- A pandas `Timestamp` instant: calendar day (days since 1970-01-01)
plus minute of that day (`0 ≤ minute < 1440` for a well-formed instant;
noon is minute 720). -/
structure Timestamp where
  day : Int
  minute : Nat
deriving DecidableEq, Repr

/-- The instant as a total number of minutes since the epoch; ordering of
timestamps is the ordering of this value. -/
def Timestamp.toMinutes (t : Timestamp) : Int :=
  t.day * 1440 + t.minute

/-- `pd.Timestamp(t.strftime('%Y-%m-%d 12:00'))`: noon of the instant's
calendar day. -/
def noonOf (t : Timestamp) : Timestamp :=
  { day := t.day, minute := 720 }

/-- `t + pd.Timedelta(days=n)`. -/
def addDays (t : Timestamp) (n : Int) : Timestamp :=
  { day := t.day + n, minute := t.minute }

/-- `pd.Timestamp('1900-03-01')` (midnight), the fixed cutoff in
`get_gregorian_index`. -/
def cutoff1900Mar01 : Timestamp :=
  { day := daysFromCivil 1900 3 1, minute := 0 }

/-- `pd.date_range(start=s, end=e, freq='D')`: the timestamps
`s, s + 1 day, s + 2 days, ...` not exceeding `e`; empty when `e < s`. -/
def dateRange (s e : Timestamp) : List Timestamp :=
  if s.toMinutes ≤ e.toMinutes then
    (List.range (((e.toMinutes - s.toMinutes) / 1440).toNat + 1)).map
      (fun i : Nat => { day := s.day + (i : Int), minute := s.minute })
  else []

/-- The `land_daily` branch of `LM4ModelOutput.get_gregorian_index`
(output.py lines 82–96): normalize the first and last raw time
coordinates to noon of their day, add one day to the end when the start
predates the 1900-03-01 cutoff, and generate the daily range. -/
def getGregorianIndexDaily (first last : Timestamp) : List Timestamp :=
  let model_start := noonOf first
  let model_end :=
    if model_start.toMinutes < cutoff1900Mar01.toMinutes then
      addDays (noonOf last) 1
    else
      noonOf last
  dateRange model_start model_end

/-- `LM4ModelOutput.get_gregorian_index` (output.py lines 66–96).
`first`/`last` are the first and last entries of the `land_daily`
diagnostic's raw time axis; `monthIndex` is the `land_month`
diagnostic's native index converted to timestamps (`to_datetimeindex`),
passed through unchanged by the `land_month` branch. -/
def get_gregorian_index (diag : String) (first last : Timestamp)
    (monthIndex : List Timestamp) : Except DataError (List Timestamp) :=
  if diag ≠ "land_daily" ∧ diag ≠ "land_month" then
    Except.error DataError.unsupportedDiagnostic
  else if diag = "land_month" then
    Except.ok monthIndex
  else
    Except.ok (getGregorianIndexDaily first last)

/-- A diagnostic's variable catalog: each data variable's name paired
with its ordered dimension signature (`diagnostic[var].dims`). -/
def Catalog : Type := List (String × List String)

/-- The shape class `LM4ModelOutput.get_data` assigns to one requested
variable (output.py lines 116–138). -/
inductive VarClass where
  /-- not in `diagnostic.data_vars`: warned, skipped. -/
  | notFound
  /-- `'zfull_soil' in dims`. -/
  | soil
  /-- `'band' in dims` (radiation). -/
  | radiation
  /-- `'grid_index' in dims and 'time' in dims`. -/
  | normal
  /-- unsupported dimensions: warned, skipped. -/
  | unsupported
deriving DecidableEq, Repr

/-- The per-variable branch of the classification loop in
`LM4ModelOutput.get_data` (output.py lines 116–138), in source order:
catalog membership, then `zfull_soil`, then `band`, then
`grid_index`-and-`time`, else unsupported. -/
def classifyVar (catalog : Catalog) (v : String) : VarClass :=
  match List.lookup v catalog with
  | none => VarClass.notFound
  | some dims =>
    if "zfull_soil" ∈ dims then VarClass.soil
    else if "band" ∈ dims then VarClass.radiation
    else if "grid_index" ∈ dims ∧ "time" ∈ dims then VarClass.normal
    else VarClass.unsupported

/-- The accumulated groups of the classification loop, including the two
warned-and-skipped kinds (`data_groups` plus the warning prints). -/
structure DataGroups where
  normal : List String
  soil : List String
  radiation : List String
  notFound : List String
  unsupported : List String
deriving DecidableEq, Repr

/-- One iteration of the classification loop: append the variable to the
group selected by `classifyVar`. -/
def classifyStep (catalog : Catalog) (g : DataGroups) (v : String) : DataGroups :=
  match classifyVar catalog v with
  | VarClass.notFound => { g with notFound := g.notFound ++ [v] }
  | VarClass.soil => { g with soil := g.soil ++ [v] }
  | VarClass.radiation => { g with radiation := g.radiation ++ [v] }
  | VarClass.normal => { g with normal := g.normal ++ [v] }
  | VarClass.unsupported => { g with unsupported := g.unsupported ++ [v] }

/-- The whole classification loop of `LM4ModelOutput.get_data`
(output.py lines 111–138). -/
def classify (catalog : Catalog) (vars : List String) : DataGroups :=
  vars.foldl (classifyStep catalog) ⟨[], [], [], [], []⟩

/-- The outcome of `LM4ModelOutput.get_data` at the classification level
(output.py lines 108–166): `data_frames` receives one frame when the
`normal` group is non-empty and one frame per `soil` variable;
`radiation` variables only warn; if `data_frames` stays empty the method
raises `ValueError("No valid variables ...")`, embedded as
`DataError.noData`. -/
def get_data (catalog : Catalog) (vars : List String) :
    Except DataError DataGroups :=
  let g := classify catalog vars
  if g.normal = [] ∧ g.soil = [] then Except.error DataError.noData
  else Except.ok g

/-- `site.replace(' ','').lower()` in every accessor constructor:
every space character is removed and the rest lowercased (character
operations are spelled out on the character list so that they compute
by kernel reduction). -/
def normalizeSite (site : String) : String :=
  String.mk ((site.data.filter (fun c => c ≠ ' ')).map Char.toLower)

/-- `LM4ModelOutput.__init__` history path (output.py lines 25–29):
note the spinup branch interpolates only `version`, not
`forcing_string`. -/
def outputHistoryPath (root site forcing_string version : String)
    (spinup : Bool) : String :=
  let s := normalizeSite site
  if spinup then
    root ++ "/" ++ s ++ "/" ++ s ++ "_spinup_v" ++ version ++ "/history"
  else
    root ++ "/" ++ s ++ "/" ++ s ++ "_s" ++ forcing_string ++ "_v" ++ version ++ "/history"

/-- `LM4Forcing.__init__` file path (forcing.py lines 25–29). -/
def forcingFilePath (root site forcing_string version : String)
    (spinup : Bool) : String :=
  let s := normalizeSite site
  if spinup then
    root ++ "/" ++ s ++ "/" ++ s ++ "_spinup_s" ++ forcing_string ++ "_v" ++ version ++ ".nc"
  else
    root ++ "/" ++ s ++ "/" ++ s ++ "_s" ++ forcing_string ++ "_v" ++ version ++ ".nc"

/-- The duplicate `LM4ModelOutput.__init__` history path in datasets.py
(lines 25–29): unlike output.py, its spinup branch keeps
`forcing_string`. -/
def datasetsHistoryPath (root site forcing_string version : String)
    (spinup : Bool) : String :=
  let s := normalizeSite site
  if spinup then
    root ++ "/" ++ s ++ "/" ++ s ++ "_spinup_s" ++ forcing_string ++ "_v" ++ version ++ "/history"
  else
    root ++ "/" ++ s ++ "/" ++ s ++ "_s" ++ forcing_string ++ "_v" ++ version ++ "/history"

/-- A calendar date: the midnight label of one sample of the
daily-resampled series (`data.resample('D').mean()` labels rows by
calendar day). -/
structure Date where
  year : Int
  month : Nat
  day : Nat
deriving DecidableEq, Repr

/-- The Gregorian leap-year rule, as `datetime` implements it. -/
def isLeapYear (y : Int) : Bool :=
  (y % 4 == 0 && y % 100 != 0) || y % 400 == 0

/-- Number of days in month `m` of year `y`. -/
def daysInMonth (y : Int) (m : Nat) : Nat :=
  if m = 2 then (if isLeapYear y then 29 else 28)
  else if m = 4 ∨ m = 6 ∨ m = 9 ∨ m = 11 then 30
  else 31

/-- Calendar date of an epoch day number (inverse of `daysFromCivil`,
standard date-from-civil-days conversion). -/
def civilFromDays (z0 : Int) : Date :=
  let z : Int := z0 + 719468
  let era : Int := (if 0 ≤ z then z else z - 146096) / 146097
  let doe : Int := z - era * 146097
  let yoe : Int := (doe - doe / 1460 + doe / 36524 - doe / 146096) / 365
  let y : Int := yoe + era * 400
  let doy : Int := doe - (365 * yoe + yoe / 4 - yoe / 100)
  let mp : Int := (5 * doy + 2) / 153
  let d : Int := doy - (153 * mp + 2) / 5 + 1
  let m : Int := mp + (if mp < 10 then 3 else -9)
  { year := y + (if m ≤ 2 then 1 else 0), month := m.toNat, day := d.toNat }

/-- Earliest calendar day whose midnight lies inside the pandas
`Timestamp` range (`pd.Timestamp.min` is 1677-09-21 00:12, so the first
representable midnight is 1677-09-22). -/
def minTimestampDay : Int := daysFromCivil 1677 9 22

/-- Latest representable calendar day (`pd.Timestamp.max` is
2262-04-11 23:47). -/
def maxTimestampDay : Int := daysFromCivil 2262 4 11

/-- `ts.replace(year=y)` on a midnight-labelled date (forcing.py line
86): keep month and day; raise `ValueError` when that month/day does not
exist in the target year (a Feb-29 date with a non-leap target year),
and `OutOfBoundsDatetime` when the result falls outside the
representable timestamp range. -/
def replaceYear (d : Date) (y : Int) : Except DataError Date :=
  if d.day ≤ daysInMonth y d.month then
    if minTimestampDay ≤ daysFromCivil y d.month d.day ∧
        daysFromCivil y d.month d.day ≤ maxTimestampDay then
      Except.ok { year := y, month := d.month, day := d.day }
    else Except.error DataError.outOfBounds
  else Except.error DataError.valueError

/-- `pd.date_range(start=s, periods=n, freq='D')` on a midnight start
day already known to be representable: `n` consecutive days; raises
`OutOfBoundsDatetime` when the range would run past the representable
maximum. -/
def dateRangePeriods (startDay : Int) (n : Nat) : Except DataError (List Int) :=
  if n = 0 ∨ startDay + ((n : Int) - 1) ≤ maxTimestampDay then
    Except.ok ((List.range n).map (fun i : Nat => startDay + (i : Int)))
  else Except.error DataError.outOfBounds

/-- `LM4Forcing.get_looped_data` (forcing.py lines 60–93) on the daily
resampled series (`data_daily = data.resample('D').mean()`, whose
date-labelled samples the list parameter holds): validate the
multiple-of-10 precondition; concatenate `spin_up_years / 10` copies of
the value series with its final sample dropped (`pd.concat` of zero
objects — the `spin_up_years = 0` case — raises pandas' own
`ValueError`); shift the series' first day to the year
`index[-1].year - spin_up_years` (raising on a non-constructible or
out-of-range date, and `IndexError` on an empty series); regenerate a
contiguous daily index of the looped length from that start; and shift
it by 12 hours to noon. -/
def get_looped_data {α : Type} (dataDaily : List (Date × α))
    (spin_up_years : Nat) : Except DataError (List (Timestamp × α)) :=
  if spin_up_years % 10 ≠ 0 then Except.error DataError.invalidArgument
  else if spin_up_years / 10 = 0 then Except.error DataError.valueError
  else
    let looped :=
      List.flatten (List.replicate (spin_up_years / 10)
        (dataDaily.dropLast.map Prod.snd))
    match dataDaily.head?, dataDaily.getLast? with
    | some firstEntry, some lastEntry =>
      match replaceYear firstEntry.1
          (lastEntry.1.year - (spin_up_years : Int)) with
      | Except.ok model_start =>
        match dateRangePeriods
            (daysFromCivil model_start.year model_start.month model_start.day)
            looped.length with
        | Except.ok days =>
          Except.ok ((days.map
            (fun d : Int => ({ day := d, minute := 720 } : Timestamp))).zip
              looped)
        | Except.error e => Except.error e
      | Except.error e => Except.error e
    | _, _ => Except.error DataError.indexError

/-- The index-value pairs of the daily resample of one variable: `n`
consecutive calendar days starting at epoch day `startDay` (values set
to 0 — they do not influence the control flow under scrutiny). -/
def dailySeries (startDay : Int) (n : Nat) : List (Date × Nat) :=
  (List.range n).map (fun i : Nat => (civilFromDays (startDay + (i : Int)), 0))

/-- Modelled from the spec: `get_flags` is invoked on `LM4Forcing` by
`tests/quicktest_forcing.py` but its implementation is absent from the
sources under src/.  Per the spec (§4.5), it returns the QC-flag series
the backing file provides for the variable, and an empty series — not an
error — when the variable has no flags.  `flagTable` holds the backing
file's per-variable flag series. -/
def get_flags {α : Type} (flagTable : List (String × List α)) (name : String) :
    List α :=
  match List.lookup name flagTable with
  | some s => s
  | none => []

/-- The error value constructed (but never raised) by the per-variable
soil check in the duplicate `LM4ModelOutput.get_data` of datasets.py
(lines 79–82): `ValueError(...)` with no `raise`. -/
def soilCheckError (v : String) : Option DataError :=
  if List.isPrefixOf "soil_".data v.data then some DataError.valueError else none

/-- The soil-check loop of `datasets.py` `get_data` (lines 78–82): each
constructed `ValueError` is discarded, so the loop has no effect and the
variable list reaches the extraction step unchanged. -/
def datasetsSoilCheck (vars : List String) : Except DataError (List String) :=
  let _discarded := vars.filterMap soilCheckError
  Except.ok vars

/-- The list of a `DataGroups` value selected by a shape class. -/
def groupOf (g : DataGroups) : VarClass → List String
  | VarClass.notFound => g.notFound
  | VarClass.soil => g.soil
  | VarClass.radiation => g.radiation
  | VarClass.normal => g.normal
  | VarClass.unsupported => g.unsupported

theorem classify_foldl (catalog : Catalog) (vars : List String) (g : DataGroups) :
    vars.foldl (classifyStep catalog) g =
      { normal := g.normal ++ vars.filter (fun v => classifyVar catalog v == VarClass.normal),
        soil := g.soil ++ vars.filter (fun v => classifyVar catalog v == VarClass.soil),
        radiation :=
          g.radiation ++ vars.filter (fun v => classifyVar catalog v == VarClass.radiation),
        notFound :=
          g.notFound ++ vars.filter (fun v => classifyVar catalog v == VarClass.notFound),
        unsupported :=
          g.unsupported ++ vars.filter (fun v => classifyVar catalog v == VarClass.unsupported) } := by
  induction vars generalizing g with
  | nil => simp
  | cons v vs ih =>
    rw [List.foldl_cons, ih]
    rcases h : classifyVar catalog v with _ | _ | _ | _ | _ <;>
      simp [classifyStep, h, List.filter_cons]

theorem classify_groupOf (catalog : Catalog) (vars : List String) (c : VarClass) :
    groupOf (classify catalog vars) c =
      vars.filter (fun v => classifyVar catalog v == c) := by
  rw [classify, classify_foldl]
  cases c <;> simp [groupOf]

theorem mem_classify_iff (catalog : Catalog) (vars : List String) (v : String)
    (c : VarClass) (hv : v ∈ vars) :
    v ∈ groupOf (classify catalog vars) c ↔ classifyVar catalog v = c := by
  rw [classify_groupOf, List.mem_filter]
  simp [hv]

theorem dateRange_eq_of_le (s e : Timestamp) (hm : s.minute = e.minute)
    (hd : s.day ≤ e.day) :
    dateRange s e =
      (List.range ((e.day - s.day).toNat + 1)).map
        (fun i => { day := s.day + i, minute := s.minute }) := by
  unfold dateRange
  have hle : s.toMinutes ≤ e.toMinutes := by
    simp only [Timestamp.toMinutes, hm]
    omega
  rw [if_pos hle]
  have hcount : ((e.toMinutes - s.toMinutes) / 1440).toNat = (e.day - s.day).toNat := by
    simp only [Timestamp.toMinutes, hm]
    omega
  rw [hcount]

theorem getGregorianIndexDaily_eq_of_ge (first last : Timestamp)
    (h1 : first.day ≤ last.day)
    (h2 : ¬ (noonOf first).toMinutes < cutoff1900Mar01.toMinutes) :
    getGregorianIndexDaily first last =
      (List.range ((last.day - first.day).toNat + 1)).map
        (fun i => { day := first.day + i, minute := 720 }) := by
  unfold getGregorianIndexDaily
  simp only [if_neg h2]
  exact dateRange_eq_of_le (noonOf first) (noonOf last) rfl h1

theorem getGregorianIndexDaily_eq_of_lt (first last : Timestamp)
    (h1 : first.day ≤ last.day)
    (h2 : (noonOf first).toMinutes < cutoff1900Mar01.toMinutes) :
    getGregorianIndexDaily first last =
      (List.range ((last.day + 1 - first.day).toNat + 1)).map
        (fun i => { day := first.day + i, minute := 720 }) := by
  unfold getGregorianIndexDaily
  simp only [if_pos h2]
  exact dateRange_eq_of_le (noonOf first) (addDays (noonOf last) 1) rfl (by
    simp only [addDays, noonOf]
    omega)

/-- C1: for raw first/last timestamps of the daily diagnostic forming a
valid span (`first.day ≤ last.day`) whose start day at local noon is on
or after the 1900-03-01 cutoff, `get_gregorian_index` for `land_daily`
returns the daily sequence, whose length is
`(last.date() - first.date()).days + 1`, which is strictly increasing
with consecutive entries exactly one day apart, and whose every entry is
at local noon. -/
theorem c1_daily_index_post_cutoff (first last : Timestamp)
    (monthIndex : List Timestamp)
    (h1 : first.day ≤ last.day)
    (h2 : ¬ (noonOf first).toMinutes < cutoff1900Mar01.toMinutes) :
    get_gregorian_index "land_daily" first last monthIndex =
        Except.ok (getGregorianIndexDaily first last) ∧
      ((getGregorianIndexDaily first last).length : Int) = last.day - first.day + 1 ∧
      List.Chain' (fun a b : Timestamp => a.toMinutes < b.toMinutes)
        (getGregorianIndexDaily first last) ∧
      List.Chain' (fun a b : Timestamp => b = addDays a 1)
        (getGregorianIndexDaily first last) ∧
      (∀ t, t ∈ getGregorianIndexDaily first last → t.minute = 720) := by
  have heq := getGregorianIndexDaily_eq_of_ge first last h1 h2
  refine ⟨by simp [get_gregorian_index], ?_, ?_, ?_, ?_⟩
  · rw [heq]
    simp only [List.length_map, List.length_range]
    omega
  · rw [heq, List.chain'_map, List.chain'_range_succ]
    intro m _
    simp only [Timestamp.toMinutes]
    push_cast
    omega
  · rw [heq, List.chain'_map, List.chain'_range_succ]
    intro m _
    simp only [addDays]
    congr 1
    push_cast
    omega
  · rw [heq]
    intro t ht
    simp only [List.mem_map, List.mem_range] at ht
    obtain ⟨i, _, rfl⟩ := ht
    rfl

/-- Witness for C1 at the concrete span 2020-01-01 00:30 .. 2020-01-04
01:40 (epoch days 18262 .. 18265), which starts after the cutoff. -/
theorem c1_daily_index_post_cutoff_witness :
    get_gregorian_index "land_daily" { day := 18262, minute := 30 }
        { day := 18265, minute := 100 } [] =
        Except.ok (getGregorianIndexDaily { day := 18262, minute := 30 }
          { day := 18265, minute := 100 }) ∧
      ((getGregorianIndexDaily { day := 18262, minute := 30 }
          { day := 18265, minute := 100 }).length : Int) = 18265 - 18262 + 1 ∧
      List.Chain' (fun a b : Timestamp => a.toMinutes < b.toMinutes)
        (getGregorianIndexDaily { day := 18262, minute := 30 }
          { day := 18265, minute := 100 }) ∧
      List.Chain' (fun a b : Timestamp => b = addDays a 1)
        (getGregorianIndexDaily { day := 18262, minute := 30 }
          { day := 18265, minute := 100 }) ∧
      (∀ t, t ∈ getGregorianIndexDaily { day := 18262, minute := 30 }
          { day := 18265, minute := 100 } → t.minute = 720) :=
  c1_daily_index_post_cutoff { day := 18262, minute := 30 }
    { day := 18265, minute := 100 } [] (by decide) (by decide)

/-- C2: for a valid raw span whose start day at noon is strictly before
the 1900-03-01 cutoff, the reconciled daily sequence is exactly one
entry longer than the naive uncorrected Gregorian span from start day to
end day inclusive (the code adds one day to the end before generating
the range). -/
theorem c2_precutoff_one_day_longer (first last : Timestamp)
    (h1 : first.day ≤ last.day)
    (h2 : (noonOf first).toMinutes < cutoff1900Mar01.toMinutes) :
    (getGregorianIndexDaily first last).length
      = (dateRange (noonOf first) (noonOf last)).length + 1 := by
  rw [getGregorianIndexDaily_eq_of_lt first last h1 h2,
    dateRange_eq_of_le (noonOf first) (noonOf last) rfl h1]
  simp only [List.length_map, List.length_range, noonOf]
  omega

/-- Witness for C2 at the concrete span with start day −26000
(1898-10-27, before the cutoff) and end day −25995. -/
theorem c2_precutoff_one_day_longer_witness :
    (getGregorianIndexDaily { day := -26000, minute := 500 }
        { day := -25995, minute := 10 }).length
      = (dateRange (noonOf { day := -26000, minute := 500 })
          (noonOf { day := -25995, minute := 10 })).length + 1 :=
  c2_precutoff_one_day_longer { day := -26000, minute := 500 }
    { day := -25995, minute := 10 } (by decide) (by decide)

/-- C6 counterexample: at a raw span whose end day (after the correction
step, which does not apply here since the start is post-cutoff) falls
five days before the start day, `get_gregorian_index` for `land_daily`
does not fail: it returns `Except.ok` with the empty sequence, so the
claimed `InvalidRangeError` failure does not happen. -/
theorem c6_counterexample_no_error :
    get_gregorian_index "land_daily" { day := 0, minute := 600 }
        { day := -5, minute := 0 } []
      = Except.ok ([] : List Timestamp) := by decide

/-- C6 (amended): when the corrected end falls before the start, the
reconciler raises nothing and returns the empty sequence
(`pd.date_range` with `end < start` is empty). -/
theorem c6_amended_empty_range (first last : Timestamp)
    (monthIndex : List Timestamp)
    (h : (if (noonOf first).toMinutes < cutoff1900Mar01.toMinutes then
            addDays (noonOf last) 1 else noonOf last).toMinutes
          < (noonOf first).toMinutes) :
    get_gregorian_index "land_daily" first last monthIndex
      = Except.ok ([] : List Timestamp) := by
  have hdaily : getGregorianIndexDaily first last = [] := by
    unfold getGregorianIndexDaily dateRange
    split at h <;> rename_i hc
    · simp only [if_pos hc]
      rw [if_neg (by omega)]
    · simp only [if_neg hc]
      rw [if_neg (by omega)]
  simp [get_gregorian_index, hdaily]

/-- Witness for the amended C6: start day 100, end day 90 (post-cutoff,
so no correction), corrected end still before start. -/
theorem c6_amended_empty_range_witness :
    get_gregorian_index "land_daily" { day := 100, minute := 0 }
        { day := 90, minute := 0 } []
      = Except.ok ([] : List Timestamp) :=
  c6_amended_empty_range { day := 100, minute := 0 } { day := 90, minute := 0 }
    [] (by decide)

/-- C3 counterexample: a variable whose dimension signature contains the
spatial-index axis, the time axis, AND a further axis (so not "nothing
else") is routed to the time-series group and is not rejected as
unsupported shape — contradicting the claimed "and nothing else"
routing. -/
theorem c3_counterexample_extra_axis :
    classifyVar [("v", ["time", "grid_index", "extra"])] "v" = VarClass.normal ∧
      (classify [("v", ["time", "grid_index", "extra"])] ["v"]).normal = ["v"] ∧
      (classify [("v", ["time", "grid_index", "extra"])] ["v"]).unsupported = [] := by
  decide

/-- C3 (amended): classification assigns each requested name to exactly
one group — a name is in the group of a shape class iff `classifyVar`
maps it there — and the routing is: name absent from the catalog →
not found; signature containing the depth (soil-layer) axis →
depth_profile; else signature containing the band axis → multi_band;
else signature containing both the spatial-index axis and the time axis
(regardless of any further axes) → time_series; anything else →
rejected as unsupported shape. -/
theorem c3_classification_routing (catalog : Catalog) (vars : List String) :
    (∀ v, v ∈ vars → ∀ c : VarClass,
      (v ∈ groupOf (classify catalog vars) c ↔ classifyVar catalog v = c)) ∧
      (∀ v, List.lookup v catalog = none →
        classifyVar catalog v = VarClass.notFound) ∧
      (∀ v dims, List.lookup v catalog = some dims →
        ((classifyVar catalog v = VarClass.soil ↔ "zfull_soil" ∈ dims) ∧
          (classifyVar catalog v = VarClass.radiation ↔
            "zfull_soil" ∉ dims ∧ "band" ∈ dims) ∧
          (classifyVar catalog v = VarClass.normal ↔
            "zfull_soil" ∉ dims ∧ "band" ∉ dims ∧
              "grid_index" ∈ dims ∧ "time" ∈ dims) ∧
          (classifyVar catalog v = VarClass.unsupported ↔
            "zfull_soil" ∉ dims ∧ "band" ∉ dims ∧
              ¬("grid_index" ∈ dims ∧ "time" ∈ dims)))) := by
  refine ⟨fun v hv c => mem_classify_iff catalog vars v c hv, ?_, ?_⟩
  · intro v hnone
    simp [classifyVar, hnone]
  · intro v dims hsome
    simp only [classifyVar, hsome]
    split_ifs with hsoil hband hnt <;> simp_all

/-- Witness for the amended C3: a variable with signature
`(time, grid_index, x)` — extra axis `x` — is classified `normal` and
lands exactly in the time-series group. -/
theorem c3_classification_routing_witness :
    classifyVar [("a", ["time", "grid_index", "x"])] "a" = VarClass.normal ∧
      "a" ∈ groupOf (classify [("a", ["time", "grid_index", "x"])] ["a"])
        VarClass.normal :=
  have h :=
    c3_classification_routing [("a", ["time", "grid_index", "x"])] ["a"]
  have hclass : classifyVar [("a", ["time", "grid_index", "x"])] "a"
      = VarClass.normal :=
    ((h.2.2 "a" ["time", "grid_index", "x"] (by decide)).2.2.1).mpr (by decide)
  ⟨hclass, (h.1 "a" (by decide) VarClass.normal).mpr hclass⟩

/-- C4: an individually rejected variable (not found, or unsupported
shape) never aborts `get_data` — it stays out of the materialized
normal/soil groups — and the call fails with `NoDataError` exactly when
nothing materializable remains; in particular, whenever every requested
variable is rejected. -/
theorem c4_get_data_rejection (catalog : Catalog) (vars : List String) :
    ((∀ v, v ∈ vars → classifyVar catalog v = VarClass.notFound ∨
        classifyVar catalog v = VarClass.unsupported) →
      get_data catalog vars = Except.error DataError.noData) ∧
      (∀ v, v ∈ vars →
        (classifyVar catalog v = VarClass.normal ∨
          classifyVar catalog v = VarClass.soil) →
        get_data catalog vars = Except.ok (classify catalog vars)) ∧
      (∀ v, v ∈ vars →
        (classifyVar catalog v = VarClass.notFound ∨
          classifyVar catalog v = VarClass.unsupported) →
        v ∉ (classify catalog vars).normal ∧ v ∉ (classify catalog vars).soil) := by
  have hnormal := classify_groupOf catalog vars VarClass.normal
  have hsoil := classify_groupOf catalog vars VarClass.soil
  simp only [groupOf] at hnormal hsoil
  refine ⟨?_, ?_, ?_⟩
  · intro hall
    have hn : (classify catalog vars).normal = [] := by
      rw [hnormal, List.filter_eq_nil_iff]
      intro v hv
      rcases hall v hv with h | h <;> simp [h]
    have hs : (classify catalog vars).soil = [] := by
      rw [hsoil, List.filter_eq_nil_iff]
      intro v hv
      rcases hall v hv with h | h <;> simp [h]
    simp [get_data, hn, hs]
  · intro v hv hc
    have hne : ¬((classify catalog vars).normal = [] ∧
        (classify catalog vars).soil = []) := by
      rintro ⟨hn, hs⟩
      rcases hc with h | h
      · have hmem : v ∈ (classify catalog vars).normal := by
          rw [hnormal]
          exact List.mem_filter.mpr ⟨hv, by rw [h]; decide⟩
        rw [hn] at hmem
        exact absurd hmem (List.not_mem_nil v)
      · have hmem : v ∈ (classify catalog vars).soil := by
          rw [hsoil]
          exact List.mem_filter.mpr ⟨hv, by rw [h]; decide⟩
        rw [hs] at hmem
        exact absurd hmem (List.not_mem_nil v)
    simp only [get_data]
    rw [if_neg hne]
  · intro v hv hc
    constructor
    · intro hmem
      rw [hnormal] at hmem
      have h2 := (List.mem_filter.mp hmem).2
      rcases hc with h | h <;> rw [h] at h2 <;> exact absurd h2 (by decide)
    · intro hmem
      rw [hsoil] at hmem
      have h2 := (List.mem_filter.mp hmem).2
      rcases hc with h | h <;> rw [h] at h2 <;> exact absurd h2 (by decide)

/-- Witness for C4: against a catalog holding only `snow_depth`,
requesting `['not_a_variable']` fails with the no-data error, while
requesting `['not_a_variable', 'snow_depth']` succeeds and the rejected
name contributes no column group. -/
theorem c4_get_data_rejection_witness :
    get_data [("snow_depth", ["time", "grid_index"])] ["not_a_variable"]
        = Except.error DataError.noData ∧
      get_data [("snow_depth", ["time", "grid_index"])]
          ["not_a_variable", "snow_depth"]
        = Except.ok (classify [("snow_depth", ["time", "grid_index"])]
            ["not_a_variable", "snow_depth"]) ∧
      "not_a_variable" ∉ (classify [("snow_depth", ["time", "grid_index"])]
          ["not_a_variable", "snow_depth"]).normal :=
  ⟨(c4_get_data_rejection [("snow_depth", ["time", "grid_index"])]
      ["not_a_variable"]).1 (by decide),
    (c4_get_data_rejection [("snow_depth", ["time", "grid_index"])]
      ["not_a_variable", "snow_depth"]).2.1 "snow_depth" (by decide)
      (Or.inl (by decide)),
    ((c4_get_data_rejection [("snow_depth", ["time", "grid_index"])]
      ["not_a_variable", "snow_depth"]).2.2 "not_a_variable" (by decide)
      (Or.inl (by decide))).1⟩

/-- C5: evaluation of the three path builders at the spinup failing
input (site `Tony Grove RS`, forcing string `00000000`, version `1.0`).
The model output accessor of output.py omits the forcing string from its
spinup directory segment (`tonygrovers_spinup_v1.0`, no occurrence of
`00000000` anywhere in the path), while the forcing accessor and the
duplicate accessor of datasets.py both include it
(`..._spinup_s00000000_v1.0`). -/
theorem c5_spinup_path_eval :
    outputHistoryPath "OUT" "Tony Grove RS" "00000000" "1.0" true
        = "OUT/tonygrovers/tonygrovers_spinup_v1.0/history" ∧
      ¬ "00000000".data <:+:
        (outputHistoryPath "OUT" "Tony Grove RS" "00000000" "1.0" true).data ∧
      forcingFilePath "FORC" "Tony Grove RS" "00000000" "1.0" true
        = "FORC/tonygrovers/tonygrovers_spinup_s00000000_v1.0.nc" ∧
      "00000000".data <:+:
        (forcingFilePath "FORC" "Tony Grove RS" "00000000" "1.0" true).data ∧
      datasetsHistoryPath "OUT" "Tony Grove RS" "00000000" "1.0" true
        = "OUT/tonygrovers/tonygrovers_spinup_s00000000_v1.0/history" := by
  decide

/-- C7 counterexample: the daily resample covering the 307 consecutive
days 2020-02-29 .. 2020-12-31 with `spin_up_years = 10` — a variable's
genuine daily series and a positive multiple of 10 — makes
`get_looped_data` raise instead of returning a series:
`index[0].replace(year=2010)` fails because 2010-02-29 does not exist
(forcing.py line 86). -/
theorem c7_counterexample_feb29 :
    get_looped_data (dailySeries (daysFromCivil 2020 2 29) 307) 10
      = Except.error DataError.valueError := by
  decide

/-- C7 (amended): for a non-empty daily-resampled series and a positive
multiple of 10 spin-up years for which the shifted model start is
constructible — the first day's month/day exists in the target year
`index[-1].year - spin_up_years` and the regenerated daily index stays
inside the representable timestamp range — `get_looped_data` succeeds
with a series of length
`(spin_up_years/10) * (days_in_one_decade_cycle - 1)` (the cycle length
being the daily series' sample count), and re-invocation with the same
arguments yields the identical result. -/
theorem c7_looped_series_length {α : Type} (dataDaily : List (Date × α))
    (spin_up_years : Nat) (firstEntry lastEntry : Date × α)
    (model_start : Date)
    (h1 : 0 < spin_up_years) (h2 : spin_up_years % 10 = 0)
    (hfirst : dataDaily.head? = some firstEntry)
    (hlast : dataDaily.getLast? = some lastEntry)
    (hreplace : replaceYear firstEntry.1
        (lastEntry.1.year - (spin_up_years : Int)) = Except.ok model_start)
    (hbound : daysFromCivil model_start.year model_start.month model_start.day
        + ((spin_up_years / 10 * (dataDaily.length - 1) : Nat) : Int) - 1
        ≤ maxTimestampDay) :
    (∃ l, get_looped_data dataDaily spin_up_years = Except.ok l ∧
        (l.length : Int)
          = (spin_up_years / 10 : Nat) * ((dataDaily.length : Int) - 1)) ∧
      get_looped_data dataDaily spin_up_years
        = get_looped_data dataDaily spin_up_years := by
  have hne : dataDaily ≠ [] := by
    intro h
    rw [h] at hfirst
    exact Option.noConfusion hfirst
  have hpos : 1 ≤ dataDaily.length := List.length_pos.mpr hne
  have hlen : (List.flatten (List.replicate (spin_up_years / 10)
      (dataDaily.dropLast.map Prod.snd))).length
      = spin_up_years / 10 * (dataDaily.length - 1) := by
    rw [List.length_flatten, List.map_replicate, List.sum_replicate,
      List.length_map, List.length_dropLast, smul_eq_mul]
  have hrange : dateRangePeriods
      (daysFromCivil model_start.year model_start.month model_start.day)
      (spin_up_years / 10 * (dataDaily.length - 1))
      = Except.ok
          ((List.range (spin_up_years / 10 * (dataDaily.length - 1))).map
            (fun i : Nat =>
              daysFromCivil model_start.year model_start.month model_start.day
                + (i : Int))) := by
    unfold dateRangePeriods
    rw [if_pos (Or.inr (by omega))]
  have hmain : get_looped_data dataDaily spin_up_years
      = Except.ok
          ((((List.range (spin_up_years / 10 * (dataDaily.length - 1))).map
            (fun i : Nat =>
              daysFromCivil model_start.year model_start.month model_start.day
                + (i : Int))).map
            (fun d : Int => ({ day := d, minute := 720 } : Timestamp))).zip
            (List.flatten (List.replicate (spin_up_years / 10)
              (dataDaily.dropLast.map Prod.snd)))) := by
    unfold get_looped_data
    rw [if_neg (by omega), if_neg (by omega)]
    simp only [hfirst, hlast, hreplace, hlen, hrange]
  refine ⟨⟨_, hmain, ?_⟩, rfl⟩
  rw [List.length_zip]
  simp only [List.length_map, List.length_range, hlen, Nat.min_self]
  push_cast [Nat.cast_sub hpos]
  ring

/-- Witness for the amended C7: the three-day series 1988-01-01 ..
1988-01-03 looped for 20 spin-up years starts at 1968-01-01 (a
constructible, in-range date) and gives `20/10 * (3-1) = 4` samples. -/
theorem c7_looped_series_length_witness :
    (∃ l, get_looped_data
          [({ year := 1988, month := 1, day := 1 }, (0 : Nat)),
           ({ year := 1988, month := 1, day := 2 }, 0),
           ({ year := 1988, month := 1, day := 3 }, 0)] 20 = Except.ok l ∧
        (l.length : Int) = ((20 / 10 : Nat) : Int) * ((3 : Int) - 1)) ∧
      get_looped_data
          [({ year := 1988, month := 1, day := 1 }, (0 : Nat)),
           ({ year := 1988, month := 1, day := 2 }, 0),
           ({ year := 1988, month := 1, day := 3 }, 0)] 20
        = get_looped_data
          [({ year := 1988, month := 1, day := 1 }, (0 : Nat)),
           ({ year := 1988, month := 1, day := 2 }, 0),
           ({ year := 1988, month := 1, day := 3 }, 0)] 20 :=
  c7_looped_series_length
    [({ year := 1988, month := 1, day := 1 }, (0 : Nat)),
     ({ year := 1988, month := 1, day := 2 }, 0),
     ({ year := 1988, month := 1, day := 3 }, 0)] 20
    ({ year := 1988, month := 1, day := 1 }, 0)
    ({ year := 1988, month := 1, day := 3 }, 0)
    { year := 1968, month := 1, day := 1 }
    (by decide) (by decide) (by decide) (by decide) (by decide) (by decide)

/-- C8: for spin-up years not a multiple of 10, `get_looped_data` fails
with the invalid-argument error, and does so before touching the data:
the outcome is identical for any other daily series. -/
theorem c8_spinup_years_validation {α : Type} (dataDaily : List (Date × α))
    (spin_up_years : Nat) (h : spin_up_years % 10 ≠ 0) :
    get_looped_data dataDaily spin_up_years
        = Except.error DataError.invalidArgument ∧
      ∀ other : List (Date × α), get_looped_data dataDaily spin_up_years
        = get_looped_data other spin_up_years := by
  constructor
  · unfold get_looped_data
    rw [if_pos h]
  · intro other
    unfold get_looped_data
    rw [if_pos h, if_pos h]

/-- Witness for C8 at `spin_up_years = 15`. -/
theorem c8_spinup_years_validation_witness :
    get_looped_data [({ year := 1988, month := 1, day := 1 }, (1 : Nat)),
        ({ year := 1988, month := 1, day := 2 }, 2)] 15
        = Except.error DataError.invalidArgument ∧
      get_looped_data [({ year := 1988, month := 1, day := 1 }, (1 : Nat)),
          ({ year := 1988, month := 1, day := 2 }, 2)] 15
        = get_looped_data ([] : List (Date × Nat)) 15 :=
  ⟨(c8_spinup_years_validation
      [({ year := 1988, month := 1, day := 1 }, (1 : Nat)),
       ({ year := 1988, month := 1, day := 2 }, 2)] 15 (by decide)).1,
    (c8_spinup_years_validation
      [({ year := 1988, month := 1, day := 1 }, (1 : Nat)),
       ({ year := 1988, month := 1, day := 2 }, 2)] 15 (by decide)).2 []⟩

/-- C9: `get_flags` returns the backing file's QC-flag series for a
variable that has one, and the empty series — not an error — for a
variable with no flags. -/
theorem c9_get_flags_total {α : Type} (flagTable : List (String × List α))
    (name : String) :
    (∀ s, List.lookup name flagTable = some s → get_flags flagTable name = s) ∧
      (List.lookup name flagTable = none → get_flags flagTable name = []) := by
  constructor
  · intro s h
    simp [get_flags, h]
  · intro h
    simp [get_flags, h]

/-- Witness for C9: a table carrying flags for `Tair` only — `Tair`
yields its series, `RH` (absent) yields the empty series. -/
theorem c9_get_flags_total_witness :
    get_flags [("Tair", [0, 1])] "Tair" = [0, 1] ∧
      get_flags [("Tair", [0, 1])] "RH" = ([] : List Nat) :=
  ⟨(c9_get_flags_total [("Tair", [0, 1])] "Tair").1 [0, 1] (by decide),
    (c9_get_flags_total [("Tair", [0, 1])] "RH").2 (by decide)⟩

/-- C10: the soil check in the duplicate accessor's `get_data`
(datasets.py) never raises: even for a variable for which the
`ValueError` object is constructed (name starting with `soil_`), the
check succeeds and the call proceeds with that variable still in the
list handed to extraction. -/
theorem c10_soil_check_never_raises (vars : List String) (v : String)
    (hv : v ∈ vars) (_hs : soilCheckError v = some DataError.valueError) :
    datasetsSoilCheck vars = Except.ok vars ∧ v ∈ vars :=
  ⟨rfl, hv⟩

/-- Witness for C10: `soil_T` triggers the constructed-but-unraised
`ValueError` and survives into the returned list. -/
theorem c10_soil_check_never_raises_witness :
    datasetsSoilCheck ["soil_T", "snow_depth"]
        = Except.ok ["soil_T", "snow_depth"] ∧
      "soil_T" ∈ ["soil_T", "snow_depth"] :=
  c10_soil_check_never_raises ["soil_T", "snow_depth"] "soil_T" (by decide)
    (by decide)

